import Mathlib

/-!
Verification of the hikyuu trading core: a shallow embedding of the per-bar
trading-system state machine (`System::_runMoment` and the order-delay
protocol from SystemBase.cpp) and of the timer scheduler (`TimerManager`),
with theorems settling the specification claims.

Conventions of the embedding:
* C++ `double` prices and quantities are idealised as exact rationals (the
  claims under study are order/flow properties, not float-rounding ones).
* `Datetime` and `TimeDelta` are microsecond counts (integers), as the spec
  describes ("absolute instant at microsecond resolution", "duration in
  ticks (microseconds)").
* External collaborators (Environment, Condition, Signal, Stoploss,
  TakeProfit, ProfitGoal, MoneyManager, Slippage) are pure query functions,
  per their contracts in the spec; the TradeManager is an abstract state
  type sigma together with its interface functions, threaded explicitly.
* `HKU_THROW` / failed `HKU_CHECK` is modelled as `Except.error`; a normal
  return is `Except.ok`.
-/

namespace Hikyuu

/-- Prices and quantities: exact rationals standing for C++ doubles. -/
abbrev Price := Rat

/-- Origin tag of a trade (`SystemPart` in the source). -/
inductive Part where
  | environment
  | condition
  | signal
  | stoploss
  | takeprofit
  | profitgoal
  | allocatefunds
  | portfolio
  | invalid
  deriving DecidableEq, Repr, BEq

/-- Business kind of a trade record (`BUSINESS` enum in the source).
`Business.none` stands for "no trade" per the spec's data model. -/
inductive Business where
  | buy
  | sell
  | buyShort
  | sellShort
  | init
  | none
  deriving DecidableEq, Repr, BEq

/-- Modelled from the spec: the `TradeRecord` value type ("datetime, stock,
business kind, price, number, cost, planPrice, stoploss, goalPrice,
realPrice, part (origin tag)"; its class lives outside the provided
sources).  The default record, `business = NONE`, is the "no trade"
record. -/
structure TradeRecord where
  datetime : Int := 0
  business : Business := Business.none
  planPrice : Price := 0
  realPrice : Price := 0
  number : Price := 0
  stoploss : Price := 0
  goalPrice : Price := 0
  part : Part := Part.invalid
  deriving DecidableEq, Repr, BEq

/-- The default-constructed `TradeRecord()` of the source. -/
def TradeRecord.null : TradeRecord := {}

/-- `TradeRecord::isNull()`: `NONE` means "no trade" (spec data model). -/
def TradeRecord.isNull (r : TradeRecord) : Bool :=
  r.business == Business.none

/-- Modelled from the spec: `PositionRecord` ("stock, entry datetime, number,
avg cost, stoploss, goalPrice"; class outside the provided sources).  Only
the fields the System reads are kept. -/
structure PositionRecord where
  number : Price := 0
  stoploss : Price := 0
  goalPrice : Price := 0
  deriving DecidableEq, Repr

/-- Modelled from the spec: the `OrderRequest` deferred-order buffer
("valid?, business, from-part, datetime, planPrice, stoploss, goal, number,
retry-count"; struct outside the provided sources).  `clear()` resets to
the default. -/
structure OrderRequest where
  valid : Bool := false
  business : Business := Business.none
  datetime : Int := 0
  stoploss : Price := 0
  goal : Price := 0
  number : Price := 0
  part : Part := Part.invalid
  count : Int := 0
  deriving DecidableEq, Repr

/-- `OrderRequest::clear()`. -/
def OrderRequest.clear (_r : OrderRequest) : OrderRequest := {}

/-- Trading metadata of the instrument (spec: `Stock` has `minTradeNumber`,
`maxTradeNumber`). -/
structure Stock where
  minTradeNumber : Price := 1
  maxTradeNumber : Price := 1000000
  deriving DecidableEq, Repr

/-- One bar (`KRecord`). -/
structure KRecord where
  datetime : Int := 0
  openPrice : Price := 0
  highPrice : Price := 0
  lowPrice : Price := 0
  closePrice : Price := 0
  deriving DecidableEq, Repr

/-- The `KRecord(datetime)` constructor used when re-submitting a delayed
request on a degenerate bar: only the datetime is set, prices are zero. -/
def KRecord.ofDatetime (d : Int) : KRecord := { datetime := d }

/-- The parameter surface of `System::initParam` with its defaults. -/
structure SysParams where
  max_delay_count : Int := 3
  delay : Bool := true
  delay_use_current_price : Bool := true
  tp_monotonic : Bool := true
  tp_delay_n : Int := 3
  ignore_sell_sg : Bool := false
  can_trade_when_high_eq_low : Bool := false
  ev_open_position : Bool := false
  cn_open_position : Bool := false
  support_borrow_cash : Bool := false
  support_borrow_stock : Bool := false
  deriving DecidableEq, Repr

/-- The plugin and TradeManager interfaces the System consumes (spec section
"Plugin contracts consumed by TS").  `sigma` is the abstract TradeManager
state; its operations return the trade record together with the updated
state.  The `get...` fields correspond to the `System::_get...` wrappers
(each delegates to the corresponding plugin instance; a missing plugin is a
constant-zero / constant-true function). -/
structure Plugins (σ : Type) where
  ev_isValid : Int → Bool
  cn_isValid : Int → Bool
  sg_shouldBuy : Int → Bool
  sg_shouldSell : Int → Bool
  getStoplossPrice : Int → Price → Price
  getShortStoplossPrice : Int → Price → Price
  getGoalPrice : Int → Price → Price
  getShortGoalPrice : Int → Price → Price
  getTakeProfitPrice : Int → Price
  getBuyNumber : Int → Price → Price → Part → Price
  getSellNumber : Int → Price → Price → Part → Price
  getBuyShortNumber : Int → Price → Price → Part → Price
  getSellShortNumber : Int → Price → Price → Part → Price
  getRealBuyPrice : Int → Price → Price
  getRealSellPrice : Int → Price → Price
  tm_buy : σ → Int → Price → Price → Price → Price → Price → Part → TradeRecord × σ
  tm_sell : σ → Int → Price → Price → Price → Price → Price → Part → TradeRecord × σ
  tm_buyShort : σ → Int → Price → Price → Price → Price → Price → Part → TradeRecord × σ
  tm_have : σ → Bool
  tm_getPosition : σ → PositionRecord
  tm_getShortPosition : σ → PositionRecord
  tm_getHoldNumber : σ → Int → Price

/-- The mutable state of a `System` instance (the member variables that the
per-bar machine reads and writes). -/
structure SysState (σ : Type) where
  params : SysParams := {}
  tm : σ
  stock : Stock := {}
  pre_ev_valid : Bool := true
  pre_cn_valid : Bool := true
  buy_days : Int := 0
  sell_short_days : Int := 0
  lastTakeProfit : Price := 0
  lastShortTakeProfit : Price := 0
  trade_list : List TradeRecord := []
  buyRequest : OrderRequest := {}
  sellRequest : OrderRequest := {}
  sellShortRequest : OrderRequest := {}
  buyShortRequest : OrderRequest := {}

namespace System

variable {σ : Type}

/-- `System::haveDelayRequest`. -/
def haveDelayRequest (s : SysState σ) : Bool :=
  s.buyRequest.valid || s.sellRequest.valid || s.sellShortRequest.valid ||
    s.buyShortRequest.valid

/-- `System::_submitBuyRequest`. -/
def submitBuyRequest (plg : Plugins σ) (s : SysState σ) (today : KRecord)
    (f : Part) : SysState σ :=
  if s.buyRequest.valid then
    if s.buyRequest.count > s.params.max_delay_count then
      { s with buyRequest := s.buyRequest.clear }
    else
      let stoploss := plg.getStoplossPrice today.datetime today.closePrice
      { s with buyRequest := { s.buyRequest with
          count := s.buyRequest.count + 1
          datetime := today.datetime
          stoploss := stoploss
          goal := plg.getGoalPrice today.datetime today.closePrice
          number := plg.getBuyNumber today.datetime today.closePrice
            (today.closePrice - stoploss) s.buyRequest.part } }
  else
    let stoploss := plg.getStoplossPrice today.datetime today.closePrice
    { s with buyRequest := { s.buyRequest with
        valid := true
        business := Business.buy
        datetime := today.datetime
        stoploss := stoploss
        goal := plg.getGoalPrice today.datetime today.closePrice
        number := plg.getBuyNumber today.datetime today.closePrice
          (today.closePrice - stoploss) f
        part := f
        count := 1 } }

/-- `System::_buyNow`. -/
def buyNow (plg : Plugins σ) (s : SysState σ) (today : KRecord)
    (f : Part) : TradeRecord × SysState σ :=
  let planPrice := today.closePrice
  let stoploss := plg.getStoplossPrice today.datetime planPrice
  if planPrice ≤ stoploss then (TradeRecord.null, s)
  else
    let number0 := plg.getBuyNumber today.datetime planPrice
      (planPrice - stoploss) f
    if number0 = 0 ∨ number0 > s.stock.maxTradeNumber then (TradeRecord.null, s)
    else
      let min_num := s.stock.minTradeNumber
      let number := if min_num > 1 then number0 / min_num * min_num else number0
      let realPrice := plg.getRealBuyPrice today.datetime planPrice
      let goalPrice := plg.getGoalPrice today.datetime planPrice
      let r := plg.tm_buy s.tm today.datetime realPrice number stoploss
        goalPrice planPrice f
      if r.1.business ≠ Business.buy then (TradeRecord.null, { s with tm := r.2 })
      else
        (r.1, { s with
          tm := r.2
          lastTakeProfit := plg.getTakeProfitPrice r.1.datetime
          trade_list := s.trade_list ++ [r.1] })

/-- `System::_buyDelay`. -/
def buyDelay (plg : Plugins σ) (s : SysState σ) (today : KRecord) :
    TradeRecord × SysState σ :=
  if today.highPrice = today.lowPrice ∧ s.params.can_trade_when_high_eq_low = false then
    (TradeRecord.null,
      submitBuyRequest plg s (KRecord.ofDatetime s.buyRequest.datetime) s.buyRequest.part)
  else
    let planPrice := today.openPrice
    let stoploss :=
      if s.params.delay_use_current_price then
        plg.getStoplossPrice today.datetime planPrice
      else s.buyRequest.stoploss
    let number0 :=
      if s.params.delay_use_current_price then
        plg.getBuyNumber today.datetime planPrice (planPrice - stoploss)
          s.buyRequest.part
      else s.buyRequest.number
    let goalPrice :=
      if s.params.delay_use_current_price then
        plg.getGoalPrice today.datetime planPrice
      else s.buyRequest.goal
    if planPrice ≤ stoploss ∨ number0 = 0 then
      (TradeRecord.null, { s with buyRequest := s.buyRequest.clear })
    else
      let min_num := s.stock.minTradeNumber
      let number := if min_num > 1 then number0 / min_num * min_num else number0
      let realPrice := plg.getRealBuyPrice today.datetime planPrice
      let r := plg.tm_buy s.tm today.datetime realPrice number stoploss
        goalPrice planPrice s.buyRequest.part
      if r.1.business ≠ Business.buy then
        (TradeRecord.null, { s with tm := r.2, buyRequest := s.buyRequest.clear })
      else
        (r.1, { s with
          tm := r.2
          buy_days := 0
          lastTakeProfit := realPrice
          trade_list := s.trade_list ++ [r.1]
          buyRequest := s.buyRequest.clear })

/-- `System::_buy`. -/
def buy (plg : Plugins σ) (s : SysState σ) (today : KRecord)
    (f : Part) : TradeRecord × SysState σ :=
  if s.params.delay then (TradeRecord.null, submitBuyRequest plg s today f)
  else buyNow plg s today f

/-- `System::_submitSellRequest`. -/
def submitSellRequest (plg : Plugins σ) (s : SysState σ) (today : KRecord)
    (f : Part) : SysState σ :=
  if s.sellRequest.valid ∧ s.sellRequest.count > s.params.max_delay_count then
    { s with sellRequest := s.sellRequest.clear }
  else
    let req0 :=
      if s.sellRequest.valid then { s.sellRequest with count := s.sellRequest.count + 1 }
      else { s.sellRequest with
        valid := true
        business := Business.sell
        count := 1 }
    let stoploss := plg.getStoplossPrice today.datetime today.closePrice
    let number :=
      if today.closePrice ≤ stoploss then plg.tm_getHoldNumber s.tm today.datetime
      else plg.getSellNumber today.datetime today.closePrice
        (today.closePrice - stoploss) f
    { s with sellRequest := { req0 with
        part := f
        datetime := today.datetime
        stoploss := stoploss
        number := number
        goal := plg.getGoalPrice today.datetime today.closePrice } }

/-- `System::_sellNow`. -/
def sellNow (plg : Plugins σ) (s : SysState σ) (today : KRecord)
    (f : Part) : TradeRecord × SysState σ :=
  let planPrice := today.closePrice
  let stoploss := plg.getStoplossPrice today.datetime planPrice
  let number :=
    if planPrice ≤ stoploss then plg.tm_getHoldNumber s.tm today.datetime
    else plg.getSellNumber today.datetime planPrice (planPrice - stoploss) f
  if ¬ (planPrice ≤ stoploss) ∧ number = 0 then (TradeRecord.null, s)
  else
    let goalPrice := plg.getGoalPrice today.datetime planPrice
    let realPrice := plg.getRealSellPrice today.datetime planPrice
    let r := plg.tm_sell s.tm today.datetime realPrice number stoploss
      goalPrice planPrice f
    if r.1.business ≠ Business.sell then (TradeRecord.null, { s with tm := r.2 })
    else
      (r.1, { s with
        tm := r.2
        lastTakeProfit :=
          if plg.tm_have r.2 = false then 0
          else plg.getTakeProfitPrice today.datetime
        trade_list := s.trade_list ++ [r.1] })

/-- `System::_sellDelay`. -/
def sellDelay (plg : Plugins σ) (s : SysState σ) (today : KRecord) :
    TradeRecord × SysState σ :=
  if today.highPrice = today.lowPrice ∧ s.params.can_trade_when_high_eq_low = false then
    (TradeRecord.null,
      submitSellRequest plg s (KRecord.ofDatetime s.sellRequest.datetime) s.sellRequest.part)
  else
    let planPrice := today.openPrice
    let f := s.sellRequest.part
    let stoploss :=
      if s.params.delay_use_current_price then
        plg.getStoplossPrice today.datetime planPrice
      else s.sellRequest.stoploss
    let number :=
      if s.params.delay_use_current_price then
        if planPrice < stoploss then plg.tm_getHoldNumber s.tm today.datetime
        else plg.getSellNumber today.datetime planPrice (planPrice - stoploss) f
      else s.sellRequest.number
    let goalPrice :=
      if s.params.delay_use_current_price then
        plg.getGoalPrice today.datetime planPrice
      else s.sellRequest.goal
    if number = 0 then
      (TradeRecord.null, { s with sellRequest := s.sellRequest.clear })
    else
      let realPrice := plg.getRealSellPrice today.datetime planPrice
      let r := plg.tm_sell s.tm today.datetime realPrice number stoploss
        goalPrice planPrice s.sellRequest.part
      if r.1.business ≠ Business.sell then
        (TradeRecord.null, { s with tm := r.2, sellRequest := s.sellRequest.clear })
      else
        (r.1, { s with
          tm := r.2
          lastTakeProfit := if plg.tm_have r.2 = false then 0 else s.lastTakeProfit
          trade_list := s.trade_list ++ [r.1]
          sellRequest := s.sellRequest.clear })

/-- `System::_sell`. -/
def sell (plg : Plugins σ) (s : SysState σ) (today : KRecord)
    (f : Part) : TradeRecord × SysState σ :=
  if s.params.delay then (TradeRecord.null, submitSellRequest plg s today f)
  else sellNow plg s today f

/-- `System::_submitBuyShortRequest`.  Note the source's overflow branch
clears `m_buyRequest` (the long-buy buffer), not `m_buyShortRequest`, and
the fresh branch stores `BUSINESS_BUY`; both are translated verbatim. -/
def submitBuyShortRequest (plg : Plugins σ) (s : SysState σ) (today : KRecord)
    (f : Part) : SysState σ :=
  if s.buyShortRequest.valid then
    if s.buyShortRequest.count > s.params.max_delay_count then
      { s with buyRequest := s.buyRequest.clear }
    else
      let stoploss := plg.getShortStoplossPrice today.datetime today.closePrice
      { s with buyShortRequest := { s.buyShortRequest with
          count := s.buyShortRequest.count + 1
          datetime := today.datetime
          stoploss := stoploss
          goal := plg.getShortGoalPrice today.datetime today.closePrice
          number := plg.getBuyShortNumber today.datetime today.closePrice
            (stoploss - today.closePrice) s.buyShortRequest.part } }
  else
    let stoploss := plg.getShortStoplossPrice today.datetime today.closePrice
    { s with buyShortRequest := { s.buyShortRequest with
        valid := true
        business := Business.buy
        datetime := today.datetime
        stoploss := stoploss
        goal := plg.getShortGoalPrice today.datetime today.closePrice
        number := plg.getBuyShortNumber today.datetime today.closePrice
          (stoploss - today.closePrice) f
        part := f
        count := 1 } }

/-- `System::_buyShortDelay`.  Note the source reads
`m_buyRequest.datetime` / `m_buyRequest.from` (not the buy-short buffer) in
the reprice branch, and its success path returns the default-constructed
`result` rather than `record`; both are translated verbatim. -/
def buyShortDelay (plg : Plugins σ) (s : SysState σ) (today : KRecord) :
    TradeRecord × SysState σ :=
  if today.highPrice = today.lowPrice then (TradeRecord.null, s)
  else
    let planPrice := today.openPrice
    let stoploss :=
      if s.params.delay_use_current_price then
        plg.getShortStoplossPrice s.buyRequest.datetime planPrice
      else s.buyShortRequest.stoploss
    let number0 :=
      if s.params.delay_use_current_price then
        plg.getBuyShortNumber today.datetime planPrice (stoploss - planPrice)
          s.buyRequest.part
      else s.buyShortRequest.number
    let goalPrice :=
      if s.params.delay_use_current_price then
        plg.getShortGoalPrice today.datetime planPrice
      else s.buyShortRequest.goal
    if number0 = 0 then
      (TradeRecord.null, { s with buyShortRequest := s.buyShortRequest.clear })
    else
      let pos := plg.tm_getShortPosition s.tm
      if pos.number = 0 then
        (TradeRecord.null, { s with buyShortRequest := s.buyShortRequest.clear })
      else
        let number := if number0 > pos.number then pos.number else number0
        let realPrice := plg.getRealBuyPrice today.datetime planPrice
        let r := plg.tm_buyShort s.tm today.datetime realPrice number stoploss
          goalPrice planPrice Part.signal
        if r.1.business ≠ Business.buyShort then
          (TradeRecord.null, { s with tm := r.2, buyShortRequest := s.buyShortRequest.clear })
        else
          (TradeRecord.null, { s with
            tm := r.2
            sell_short_days := 0
            lastTakeProfit := realPrice
            trade_list := s.trade_list ++ [r.1]
            buyShortRequest := s.buyShortRequest.clear })

/-- `System::_submitSellShortRequest`.  Note the source computes stoploss,
goal and number with the long-side helpers (`_getStoplossPrice`,
`_getGoalPrice`, `_getSellNumber`), and in the fresh branch the number is
computed with the buffer's (default) `from` before `from` is assigned;
translated verbatim. -/
def submitSellShortRequest (plg : Plugins σ) (s : SysState σ) (today : KRecord)
    (f : Part) : SysState σ :=
  if s.sellShortRequest.valid then
    if s.sellShortRequest.count > s.params.max_delay_count then
      { s with sellShortRequest := s.sellShortRequest.clear }
    else
      let stoploss := plg.getStoplossPrice today.datetime today.closePrice
      { s with sellShortRequest := { s.sellShortRequest with
          count := s.sellShortRequest.count + 1
          datetime := today.datetime
          stoploss := stoploss
          goal := plg.getGoalPrice today.datetime today.closePrice
          number := plg.getSellNumber today.datetime today.closePrice
            (today.closePrice - stoploss) s.sellShortRequest.part } }
  else
    let stoploss := plg.getStoplossPrice today.datetime today.closePrice
    { s with sellShortRequest := { s.sellShortRequest with
        valid := true
        business := Business.sellShort
        datetime := today.datetime
        stoploss := stoploss
        goal := plg.getGoalPrice today.datetime today.closePrice
        number := plg.getSellNumber today.datetime today.closePrice
          (today.closePrice - stoploss) s.sellShortRequest.part
        part := f
        count := 1 } }

/-- `System::_sellShortDelay`. -/
def sellShortDelay (plg : Plugins σ) (s : SysState σ) (today : KRecord) :
    TradeRecord × SysState σ :=
  if today.highPrice = today.lowPrice then
    (TradeRecord.null,
      submitSellShortRequest plg s (KRecord.ofDatetime s.sellShortRequest.datetime)
        s.sellShortRequest.part)
  else
    let planPrice := today.openPrice
    let stoploss :=
      if s.params.delay_use_current_price then
        plg.getShortStoplossPrice today.datetime planPrice
      else s.sellShortRequest.stoploss
    let number :=
      if s.params.delay_use_current_price then
        plg.getSellShortNumber today.datetime planPrice (stoploss - planPrice)
          s.sellShortRequest.part
      else s.sellShortRequest.number
    let goalPrice :=
      if s.params.delay_use_current_price then
        plg.getShortGoalPrice today.datetime planPrice
      else s.sellShortRequest.goal
    if number = 0 then
      (TradeRecord.null, { s with sellShortRequest := s.sellShortRequest.clear })
    else
      let realPrice := plg.getRealSellPrice today.datetime planPrice
      let r := plg.tm_sell s.tm today.datetime realPrice number stoploss
        goalPrice planPrice s.sellShortRequest.part
      if r.1.business ≠ Business.sellShort then
        (TradeRecord.null, { s with tm := r.2, sellShortRequest := s.sellShortRequest.clear })
      else
        (r.1, { s with
          tm := r.2
          sell_short_days := 0
          lastShortTakeProfit := realPrice
          trade_list := s.trade_list ++ [r.1]
          sellShortRequest := s.sellShortRequest.clear })

/-- `System::_processRequest`: dispatch the first pending request among
long-buy, long-sell, short-sell, short-buy. -/
def processRequest (plg : Plugins σ) (s : SysState σ) (today : KRecord) :
    TradeRecord × SysState σ :=
  if s.buyRequest.valid then buyDelay plg s today
  else if s.sellRequest.valid then sellDelay plg s today
  else if s.sellShortRequest.valid then sellShortDelay plg s today
  else if s.buyShortRequest.valid then buyShortDelay plg s today
  else (TradeRecord.null, s)

/-- The holding-guarded exit used by the environment, condition and
sell-signal phases of `System::_runMoment`:
`TradeRecord tr; if (m_tm->have(m_stock)) tr = _sell(today, from);`. -/
def condSell (plg : Plugins σ) (s : SysState σ) (today : KRecord)
    (f : Part) : TradeRecord × SysState σ :=
  if plg.tm_have s.tm = true then sell plg s today f
  else (TradeRecord.null, s)

/-- The position-management block of `System::_runMoment` (entered while a
long position is held): stoploss exit, profit-goal exit, else trailing
take-profit — `current_take_profile` is floored at `m_lastTakeProfit`,
which otherwise ratchets up to it, and a close at or below the trailing
level exits with `from = TAKEPROFIT`. -/
def positionPhase (plg : Plugins σ) (s : SysState σ) (today : KRecord) :
    TradeRecord × SysState σ :=
  if today.closePrice ≤ (plg.tm_getPosition s.tm).stoploss then
    sell plg s today Part.stoploss
  else if today.closePrice ≥ plg.getGoalPrice today.datetime today.closePrice then
    sell plg s today Part.profitgoal
  else
    let ctp := plg.getTakeProfitPrice today.datetime
    if ctp ≠ 0 then
      if ctp < s.lastTakeProfit then
        if today.closePrice ≤ s.lastTakeProfit then sell plg s today Part.takeprofit
        else (TradeRecord.null, s)
      else
        if today.closePrice ≤ ctp then
          sell plg { s with lastTakeProfit := ctp } today Part.takeprofit
        else (TradeRecord.null, { s with lastTakeProfit := ctp })
    else (TradeRecord.null, s)

/-- `System::_runMoment`: the per-bar state machine (degenerate-bar gate,
delayed-order processing, environment, condition, signal and position
phases; each phase that acts returns `tr.isNull() ? result : tr`). -/
def runMomentInner (plg : Plugins σ) (s : SysState σ) (today : KRecord) :
    TradeRecord × SysState σ :=
  if (today.highPrice = today.lowPrice ∨ today.closePrice > today.highPrice ∨
      today.closePrice < today.lowPrice) ∧
      s.params.can_trade_when_high_eq_low = false then
    (TradeRecord.null, s)
  else
    let pr := processRequest plg s today
    let result := pr.1
    let s1 := pr.2
    let current_ev_valid := plg.ev_isValid today.datetime
    if current_ev_valid = false then
      let trs := condSell plg s1 today Part.environment
      (if trs.1.isNull then result else trs.1,
        { trs.2 with pre_ev_valid := current_ev_valid })
    else if s1.pre_ev_valid = false ∧ s1.params.ev_open_position then
      let trs := buy plg s1 today Part.environment
      (if trs.1.isNull then result else trs.1,
        { trs.2 with pre_ev_valid := current_ev_valid })
    else
      let s2 := { s1 with pre_ev_valid := current_ev_valid }
      let current_cn_valid := plg.cn_isValid today.datetime
      if current_cn_valid = false then
        let trs := condSell plg s2 today Part.condition
        (if trs.1.isNull then result else trs.1,
          { trs.2 with pre_cn_valid := current_cn_valid })
      else if s2.pre_cn_valid = false ∧ s2.params.cn_open_position then
        let trs := buy plg s2 today Part.condition
        (if trs.1.isNull then result else trs.1,
          { trs.2 with pre_cn_valid := current_cn_valid })
      else
        let s3 := { s2 with pre_cn_valid := current_cn_valid }
        if plg.sg_shouldBuy today.datetime then
          let trs := buy plg s3 today Part.signal
          (if trs.1.isNull then result else trs.1, trs.2)
        else if plg.sg_shouldSell today.datetime then
          let trs := condSell plg s3 today Part.signal
          (if trs.1.isNull then result else trs.1, trs.2)
        else if (plg.tm_getPosition s3.tm).number ≠ 0 then
          let trs := positionPhase plg s3 today
          (if trs.1.isNull then result else trs.1, trs.2)
        else
          (result, s3)

/-- `System::runMoment(const KRecord&)`: bump the day counters and run the
per-bar machine. -/
def runMoment (plg : Plugins σ) (s : SysState σ) (today : KRecord) :
    TradeRecord × SysState σ :=
  runMomentInner plg
    { s with buy_days := s.buy_days + 1, sell_short_days := s.sell_short_days + 1 }
    today

end System

/-! ## Timer scheduler (`TimerManager`)

`Datetime` and `TimeDelta` are microsecond counts.  The `TimeDelta`
constructor (declared outside the provided sources) takes positional
arguments `(days, hours, minutes, seconds, milliseconds, microseconds)`,
as its call sites in the provided header show
(`TimeDelta(0, 23, 59, 59, 999, 999)` is the largest valid time of day,
`TimeDelta(0, 0, 0, 0, 100)` is a 100 ms delay); hence `TimeDelta(1)` is
one day. -/

namespace Sched

/-- Microseconds per day. -/
def usPerDay : Int := 86400000000

/-- The `TimeDelta(days, hours, minutes, seconds, milliseconds,
microseconds)` constructor, in microsecond ticks. -/
def timeDelta (days hours minutes seconds milliseconds microseconds : Int) : Int :=
  days * usPerDay + hours * 3600000000 + minutes * 60000000 +
    seconds * 1000000 + milliseconds * 1000 + microseconds

/-- `Datetime::startOfDay()`: the day boundary at or before the instant. -/
def startOfDay (d : Int) : Int := d - d % usPerDay

/-- Time of day of an instant (`d - d.startOfDay()`). -/
def timeOfDay (d : Int) : Int := d % usPerDay

/-- `std::numeric_limits<int>::max()`. -/
def intMax : Int := 2147483647

/-- `Datetime::max()` sentinel ("no end date"), 9999-12-31 in the source;
only its role as a distinguished sentinel matters here. -/
def datetimeMax : Int := 253402300799999999

/-- `Datetime::min()` sentinel. -/
def datetimeMin : Int := 0

/-- The mutable data of one `TimerManager::Timer` (the type-erased callback
is represented by the timer's identity; the worker pool lives outside the model). -/
structure Timer where
  start_date : Int := datetimeMin
  end_date : Int := datetimeMax
  start_time : Int := 0
  end_time : Int := 0
  duration : Int := 0
  repeat_num : Int := 1
  deriving DecidableEq, Repr

/-- A `TimerManager::IntervalS` queue entry. -/
structure IntervalS where
  m_time_point : Int := 0
  m_timer_id : Int := -1
  deriving DecidableEq, Repr

/-- The body of `TimerManager::detectThread` after the popped entry's timer
was found and its callback submitted: decrement `repeat_num` unless
infinite, drop the timer when exhausted or past `end_date + end_time`,
advance by `duration`, and roll a windowed next instant that exceeds
today's `end_time` to `today + start_time + TimeDelta(1)` (the next day's
`start_time`).  `none` means the timer was removed; otherwise the next
queue instant and the updated timer are returned. -/
def fireStep (now : Int) (t : Timer) (tp : Int) :
    Option (Int × Timer) :=
  let t1 := if t.repeat_num ≠ intMax then { t with repeat_num := t.repeat_num - 1 } else t
  if t1.repeat_num ≤ 0 then none
  else
    let next := tp + t1.duration
    if t1.end_date ≠ datetimeMax ∧ next > t1.end_date + t1.end_time then none
    else
      let today := startOfDay now
      let next2 :=
        if t1.start_time ≠ t1.end_time ∧ next > today + t1.end_time then
          today + t1.start_time + timeDelta 1 0 0 0 0 0
        else next
      some (next2, t1)

/-- The first queue instant computed by `TimerManager::_addFunc`
(`s.m_time_point = Datetime::now() + duration`): no window snapping. -/
def addFuncInstant (now : Int) (duration : Int) : Int :=
  now + duration

/-- Pop the earliest entry of the queue (the `priority_queue` is a min-heap
on `m_time_point`; tie order is unspecified and irrelevant here). -/
def popMin : List IntervalS → Option (IntervalS × List IntervalS)
  | [] => Option.none
  | x :: xs =>
    match popMin xs with
    | Option.none => some (x, [])
    | some (m, rest) =>
      if x.m_time_point ≤ m.m_time_point then some (x, xs) else some (m, x :: rest)

/-- The scheduler's mutable data: the queue and the timer map (an
association list keyed by id). -/
structure SchedState where
  queue : List IntervalS := []
  timers : List (Int × Timer) := []
  deriving DecidableEq, Repr

/-- `m_timers.find(id)`. -/
def findTimer (timers : List (Int × Timer)) (id : Int) : Option Timer :=
  match timers with
  | [] => Option.none
  | (k, t) :: rest => if k = id then some t else findTimer rest id

/-- Replace / remove a timer in the map. -/
def setTimer (timers : List (Int × Timer)) (id : Int) (v : Option Timer) :
    List (Int × Timer) :=
  match timers with
  | [] => match v with | Option.none => [] | some t => [(id, t)]
  | (k, t) :: rest =>
    if k = id then
      match v with
      | Option.none => rest
      | some t2 => (id, t2) :: rest
    else (k, t) :: setTimer rest id v

/-- One iteration of the `detectThread` loop at instant `now`: if the
earliest entry is due, pop it; a stale id (not in the map) is skipped;
otherwise the callback is dispatched (`m_tg->submit`) — reported as
`some (id, scheduled instant)` — and the timer is rescheduled or removed
by `fireStep`.  `none` means the thread would wait. -/
def detectStep (now : Int) (st : SchedState) :
    Option (Int × Int) × SchedState :=
  match popMin st.queue with
  | Option.none => (Option.none, st)
  | some (s, rest) =>
    if s.m_time_point - now > 0 then (Option.none, st)
    else
      match findTimer st.timers s.m_timer_id with
      | Option.none => (Option.none, { st with queue := rest })
      | some t =>
        match fireStep now t s.m_time_point with
        | Option.none =>
          (some (s.m_timer_id, s.m_time_point),
            { queue := rest, timers := setTimer st.timers s.m_timer_id Option.none })
        | some (next, t1) =>
          (some (s.m_timer_id, s.m_time_point),
            { queue := { m_time_point := next, m_timer_id := s.m_timer_id } :: rest,
              timers := setTimer st.timers s.m_timer_id (some t1) })

/-- `TimeDelta(0, 23, 59, 59, 999, 999)`, the largest admissible time of
day in the submission checks. -/
def hkuMaxTime : Int := timeDelta 0 23 59 59 999 999

/-- The argument tuple every submission path hands to
`TimerManager::_addFunc`.  Dates are `Option` so that the null `Datetime`
is representable (`Option.none` = `Datetime()`); `Datetime::min()` /
`Datetime::max()` are `some datetimeMin` / `some datetimeMax`. -/
structure Submission where
  start_date : Option Int
  end_date : Option Int
  start_time : Int
  end_time : Int
  repeat_num : Int
  duration : Int
  deriving DecidableEq, Repr

/-- The conjunction of the `HKU_CHECK` validation rules of
`TimerManager::addFunc` (the general submission path). -/
def addFuncChecks (sub : Submission) : Bool :=
  match sub.start_date, sub.end_date with
  | some sd, some ed =>
    decide (ed > sd) &&
    decide (sub.start_time > 0 ∧ sub.start_time ≤ hkuMaxTime) &&
    decide (sub.end_time > 0 ∧ sub.end_time ≤ hkuMaxTime) &&
    decide (sub.end_time ≥ sub.start_time) &&
    decide (sub.repeat_num > 0) &&
    decide (sub.duration > 0)
  | _, _ => false

/-- `TimerManager::addFunc`: validate, then submit to `_addFunc`.  A failed
`HKU_CHECK` raises (modelled as `Except.error`). -/
def addFuncSubmission (sub : Submission) : Except String Submission :=
  if addFuncChecks sub then Except.ok sub else Except.error "Invalid argument!"

/-- `TimerManager::addDurationFunc`: checks only `repeat_num > 0` and
`duration > 0`, then hands `(Datetime::min(), Datetime::max(), TimeDelta(),
TimeDelta(), repeat_num, duration)` to `_addFunc`. -/
def addDurationFuncSubmission (repeat_num duration : Int) : Except String Submission :=
  if repeat_num > 0 then
    if duration > 0 then
      Except.ok { start_date := some datetimeMin, end_date := some datetimeMax,
                  start_time := 0, end_time := 0,
                  repeat_num := repeat_num, duration := duration }
    else Except.error "Invalid duration!"
  else Except.error "Invalid repeat_num!"

/-- `TimerManager::addDelayFunc`: checks only `delay > 0`, then hands
`(Datetime::min(), Datetime::max(), TimeDelta(), TimeDelta(), 1, delay)`
to `_addFunc`. -/
def addDelayFuncSubmission (delay : Int) : Except String Submission :=
  if delay > 0 then
    Except.ok { start_date := some datetimeMin, end_date := some datetimeMax,
                start_time := 0, end_time := 0, repeat_num := 1, duration := delay }
  else Except.error "Invalid delay!"

/-- `TimerManager::addFuncAtPoint`: checks only that `time_point` is not
null, then submits a one-shot 100 ms-delay timer at
`(run_point.startOfDay(), Datetime::max(), run_point - date,
TimeDelta(0,23,59,59,999,999), 1, 100ms)`. -/
def addFuncAtPointSubmission (time_point : Option Int) : Except String Submission :=
  match time_point with
  | Option.none => Except.error "Invalid time_point"
  | some tpv =>
    let delay := timeDelta 0 0 0 0 100 0
    let run_point := tpv - delay
    let date := startOfDay run_point
    Except.ok { start_date := some date, end_date := some datetimeMax,
                start_time := run_point - date, end_time := hkuMaxTime,
                repeat_num := 1, duration := delay }

/-- The timer map abstracted by its size and key-membership test, so that a
map holding `INT_MAX` live timers is a representable value. -/
structure TimerMap where
  size : Nat
  memK : Int → Bool

/-- `TimerManager::getNewTimerId`'s probe loop: advance (wrapping at
`INT_MAX`) until an unused id is found.  The C++ `while (true)` loop is
given explicit fuel; with fewer than `INT_MAX` live timers the probe finds
a free id within `INT_MAX + 2` steps. -/
def probeId (m : TimerMap) : Nat → Int → Int
  | 0, cur => cur
  | fuel + 1, cur =>
    if m.memK cur then
      probeId m fuel (if cur ≥ intMax then 0 else cur + 1)
    else cur

/-- `TimerManager::getNewTimerId`: `-1` (and an untouched
`m_current_timer_id`) when the map already holds `INT_MAX` timers;
otherwise advance-and-probe for the first unused id.  Returns
`(allocated id, new m_current_timer_id)`. -/
def getNewTimerId (m : TimerMap) (cur : Int) : Int × Int :=
  if m.size ≥ 2147483647 then (-1, cur)
  else
    let c1 := if cur ≥ intMax then 0 else cur + 1
    let r := probeId m 2147483649 c1
    (r, r)

/-- The scheduler state seen by `_addFunc`'s id/registration step. -/
structure TState where
  timers : TimerMap
  queue : List IntervalS
  current_timer_id : Int

/-- `m_timers[id] = t` on the abstract map. -/
def TimerMap.insert (m : TimerMap) (id : Int) : TimerMap :=
  { size := m.size + 1, memK := fun k => k == id || m.memK k }

/-- The state-mutating part of `TimerManager::_addFunc`: compute the first
instant `now + duration`, allocate an id, and either raise
(`HKU_THROW("Failed to get new id, maybe too timers!")`, leaving the map
and queue untouched) or register the timer and push the queue entry.  The
returned `Except` carries the allocated id on success. -/
def addFuncState (now duration : Int) (st : TState) :
    Except String Int × TState :=
  let tp := addFuncInstant now duration
  let idc := getNewTimerId st.timers st.current_timer_id
  if idc.1 < 0 then
    (Except.error "Failed to get new id, maybe too timers!", st)
  else
    (Except.ok idc.1,
      { timers := st.timers.insert idc.1,
        queue := { m_time_point := tp, m_timer_id := idc.1 } :: st.queue,
        current_timer_id := idc.2 })

end Sched

/-! ## Concrete instances used by witnesses and counterexamples -/

open System Sched

/-- A trivial plugin/TradeManager environment over the unit TradeManager
state. -/
def plugTriv : Plugins Unit where
  ev_isValid := fun _ => true
  cn_isValid := fun _ => true
  sg_shouldBuy := fun _ => false
  sg_shouldSell := fun _ => false
  getStoplossPrice := fun _ _ => 0
  getShortStoplossPrice := fun _ _ => 0
  getGoalPrice := fun _ _ => 0
  getShortGoalPrice := fun _ _ => 0
  getTakeProfitPrice := fun _ => 0
  getBuyNumber := fun _ _ _ _ => 0
  getSellNumber := fun _ _ _ _ => 0
  getBuyShortNumber := fun _ _ _ _ => 0
  getSellShortNumber := fun _ _ _ _ => 0
  getRealBuyPrice := fun _ p => p
  getRealSellPrice := fun _ p => p
  tm_buy := fun tm dt rp n sl gp pp f =>
    ({ datetime := dt, business := Business.buy, planPrice := pp, realPrice := rp,
       number := n, stoploss := sl, goalPrice := gp, part := f }, tm)
  tm_sell := fun tm dt rp n sl gp pp f =>
    ({ datetime := dt, business := Business.sell, planPrice := pp, realPrice := rp,
       number := n, stoploss := sl, goalPrice := gp, part := f }, tm)
  tm_buyShort := fun tm dt rp n sl gp pp f =>
    ({ datetime := dt, business := Business.buyShort, planPrice := pp, realPrice := rp,
       number := n, stoploss := sl, goalPrice := gp, part := f }, tm)
  tm_have := fun _ => false
  tm_getPosition := fun _ => {}
  tm_getShortPosition := fun _ => {}
  tm_getHoldNumber := fun _ _ => 0

/-- State with a pending delayed long-buy request (retry count 1). -/
def exC1state : SysState Unit :=
  { tm := (),
    buyRequest := { valid := true, business := Business.buy, datetime := 5, count := 1 } }

/-- A degenerate bar (`high == low`). -/
def exC1bar : KRecord :=
  { datetime := 10, openPrice := 9, highPrice := 9, lowPrice := 9, closePrice := 9 }

/-- A normal (non-degenerate) bar. -/
def exBar : KRecord :=
  { datetime := 20, openPrice := 99, highPrice := 101, lowPrice := 97, closePrice := 100 }

/-- State with live long-buy and short-buy requests, the short-buy one past
`max_delay_count`. -/
def exC3state : SysState Unit :=
  { tm := (),
    buyRequest := { valid := true, business := Business.buy, count := 2 },
    buyShortRequest := { valid := true, business := Business.buy, count := 4 } }

/-- Plugins under which a long entry succeeds: stoploss 90, quantity 100,
slippage-adjusted real price 101, take-profit plugin value 55. -/
def exC4plugins : Plugins Unit :=
  { plugTriv with
    getStoplossPrice := fun _ _ => 90
    getBuyNumber := fun _ _ _ _ => 100
    getRealBuyPrice := fun _ _ => 101
    getTakeProfitPrice := fun _ => 55 }

/-- `exC4plugins` with a buy signal on every bar (for the immediate-mode
entry through `runMoment`). -/
def exC4buyPlugins : Plugins Unit :=
  { exC4plugins with sg_shouldBuy := fun _ => true }

/-- Immediate-mode state (`delay = false`), no position. -/
def exC4state : SysState Unit := { tm := (), params := { delay := false } }

/-- State with a pending delayed long-buy request decided on bar 19. -/
def exC4delayState : SysState Unit :=
  { tm := (),
    buyRequest := { valid := true, business := Business.buy, datetime := 19,
                    count := 1, part := Part.signal } }

/-- Plugins with a sell signal while long: `shouldSell` true, holding. -/
def exC5plugins : Plugins Unit :=
  { plugTriv with
    sg_shouldSell := fun _ => true
    getStoplossPrice := fun _ _ => 90
    getSellNumber := fun _ _ _ _ => 100
    tm_have := fun _ => true }

/-- Immediate-mode state with `ignore_sell_sg = true`. -/
def exC5state : SysState Unit :=
  { tm := (), params := { ignore_sell_sg := true, delay := false } }

/-- Plugins under which a delayed buy-short (cover) order succeeds: short
stoploss 120, cover quantity 50, short position of 80 held. -/
def exC10plugins : Plugins Unit :=
  { plugTriv with
    getShortStoplossPrice := fun _ _ => 120
    getBuyShortNumber := fun _ _ _ _ => 50
    tm_getShortPosition := fun _ => { number := 80, stoploss := 0, goalPrice := 0 }
    getStoplossPrice := fun _ _ => 90
    getBuyNumber := fun _ _ _ _ => 100 }

/-- State whose only pending request is a delayed buy-short decided on
bar 19. -/
def exC10state : SysState Unit :=
  { tm := (),
    buyShortRequest := { valid := true, business := Business.buy, datetime := 19,
                         count := 1, part := Part.signal } }

/-- A daily-windowed timer: window 09:30–15:00, period one hour, infinite
repeats (spec scenario "Scheduler windowed repeat"). -/
def exTimer : Sched.Timer :=
  { start_time := timeDelta 0 9 30 0 0 0, end_time := timeDelta 0 15 0 0 0 0,
    duration := timeDelta 0 1 0 0 0 0, repeat_num := intMax }

/-- 15:00 on day 0. -/
def exFireNow : Int := timeDelta 0 15 0 0 0 0

/-- 16:00 on day 0: the instant at which `exTimer` is registered through
`addFunc` while the scheduler is running. -/
def exAddNow : Int := timeDelta 0 16 0 0 0 0

/-- The scheduler state right after `addFunc` registered `exTimer` at
16:00: the first queue instant is `now + duration` (17:00), with no window
snapping. -/
def exC7sched : SchedState :=
  { queue := [{ m_time_point := addFuncInstant exAddNow exTimer.duration, m_timer_id := 0 }],
    timers := [(0, exTimer)] }

/-- The submission produced by `addDelayFunc(TimeDelta(0,0,0,5))` (a 5 s
one-shot delay). -/
def exC8sub : Submission :=
  { start_date := some datetimeMin, end_date := some datetimeMax,
    start_time := 0, end_time := 0, repeat_num := 1, duration := 5000000 }

/-- A timer map holding `INT_MAX` live timers (every id in use). -/
def exC9full : TState :=
  { timers := { size := 2147483647, memK := fun _ => true },
    queue := [], current_timer_id := 5 }

/-- `Except.ok` test for the result of `addFuncState`. -/
def isOkId : Except String Int → Bool
  | Except.ok _ => true
  | Except.error _ => false

/-- Auxiliary predicate: state `s2` has the same parameters as `s` and its
trade list extends `s`'s by at most one record. -/
def StepAppends {σ : Type} (s s2 : SysState σ) : Prop :=
  s2.params = s.params ∧
    ∃ t, s2.trade_list = s.trade_list ++ t ∧ t.length ≤ 1

/-! ## Theorems -/

theorem stepAppends_refl {σ : Type} (s : SysState σ) : StepAppends s s :=
  ⟨rfl, [], by simp, by simp⟩

theorem stepAppends_of_eq {σ : Type} (s : SysState σ) {sx s2 : SysState σ}
    (hp : sx.params = s.params) (ht : sx.trade_list = s.trade_list)
    (h : StepAppends sx s2) : StepAppends s s2 := by
  obtain ⟨h1, t, h2, h3⟩ := h
  exact ⟨h1.trans hp, t, h2.trans (by rw [ht]), h3⟩

theorem stepAppends_pre_ev {σ : Type} {s s2 : SysState σ} {b : Bool}
    (h : StepAppends s s2) : StepAppends s { s2 with pre_ev_valid := b } :=
  ⟨h.1, h.2⟩

theorem stepAppends_pre_cn {σ : Type} {s s2 : SysState σ} {b : Bool}
    (h : StepAppends s s2) : StepAppends s { s2 with pre_cn_valid := b } :=
  ⟨h.1, h.2⟩

theorem submitBuyRequest_fields {σ : Type} (plg : Plugins σ) (s : SysState σ)
    (k : KRecord) (f : Part) :
    (System.submitBuyRequest plg s k f).trade_list = s.trade_list ∧
    (System.submitBuyRequest plg s k f).params = s.params := by
  unfold System.submitBuyRequest
  split_ifs <;> exact ⟨rfl, rfl⟩

theorem submitSellRequest_fields {σ : Type} (plg : Plugins σ) (s : SysState σ)
    (k : KRecord) (f : Part) :
    (System.submitSellRequest plg s k f).trade_list = s.trade_list ∧
    (System.submitSellRequest plg s k f).params = s.params := by
  unfold System.submitSellRequest
  split_ifs <;> exact ⟨rfl, rfl⟩

theorem submitSellShortRequest_fields {σ : Type} (plg : Plugins σ) (s : SysState σ)
    (k : KRecord) (f : Part) :
    (System.submitSellShortRequest plg s k f).trade_list = s.trade_list ∧
    (System.submitSellShortRequest plg s k f).params = s.params := by
  unfold System.submitSellShortRequest
  split_ifs <;> exact ⟨rfl, rfl⟩

theorem submitBuyShortRequest_fields {σ : Type} (plg : Plugins σ) (s : SysState σ)
    (k : KRecord) (f : Part) :
    (System.submitBuyShortRequest plg s k f).trade_list = s.trade_list ∧
    (System.submitBuyShortRequest plg s k f).params = s.params := by
  unfold System.submitBuyShortRequest
  split_ifs <;> exact ⟨rfl, rfl⟩

theorem buyNow_stepAppends {σ : Type} (plg : Plugins σ) (s : SysState σ)
    (k : KRecord) (f : Part) : StepAppends s (System.buyNow plg s k f).2 := by
  unfold System.buyNow
  dsimp only
  split_ifs <;>
    first
      | exact ⟨rfl, [], (List.append_nil _).symm, by simp⟩
      | exact ⟨rfl, [_], rfl, by simp⟩

theorem sellNow_stepAppends {σ : Type} (plg : Plugins σ) (s : SysState σ)
    (k : KRecord) (f : Part) : StepAppends s (System.sellNow plg s k f).2 := by
  unfold System.sellNow
  dsimp only
  split_ifs <;>
    first
      | exact ⟨rfl, [], (List.append_nil _).symm, by simp⟩
      | exact ⟨rfl, [_], rfl, by simp⟩

theorem buyDelay_stepAppends {σ : Type} (plg : Plugins σ) (s : SysState σ)
    (k : KRecord) : StepAppends s (System.buyDelay plg s k).2 := by
  unfold System.buyDelay
  dsimp only
  split_ifs <;>
    first
      | exact ⟨rfl, [], (List.append_nil _).symm, by simp⟩
      | exact ⟨rfl, [_], rfl, by simp⟩
      | exact ⟨(submitBuyRequest_fields plg s
           (KRecord.ofDatetime s.buyRequest.datetime) s.buyRequest.part).2, [],
          (submitBuyRequest_fields plg s
            (KRecord.ofDatetime s.buyRequest.datetime) s.buyRequest.part).1.trans
            (List.append_nil _).symm, by simp⟩

theorem sellDelay_stepAppends {σ : Type} (plg : Plugins σ) (s : SysState σ)
    (k : KRecord) : StepAppends s (System.sellDelay plg s k).2 := by
  unfold System.sellDelay
  dsimp only
  split_ifs <;>
    first
      | exact ⟨rfl, [], (List.append_nil _).symm, by simp⟩
      | exact ⟨rfl, [_], rfl, by simp⟩
      | exact ⟨(submitSellRequest_fields plg s
           (KRecord.ofDatetime s.sellRequest.datetime) s.sellRequest.part).2, [],
          (submitSellRequest_fields plg s
            (KRecord.ofDatetime s.sellRequest.datetime) s.sellRequest.part).1.trans
            (List.append_nil _).symm, by simp⟩

theorem sellShortDelay_stepAppends {σ : Type} (plg : Plugins σ) (s : SysState σ)
    (k : KRecord) : StepAppends s (System.sellShortDelay plg s k).2 := by
  unfold System.sellShortDelay
  dsimp only
  split_ifs <;>
    first
      | exact ⟨rfl, [], (List.append_nil _).symm, by simp⟩
      | exact ⟨rfl, [_], rfl, by simp⟩
      | exact ⟨(submitSellShortRequest_fields plg s
           (KRecord.ofDatetime s.sellShortRequest.datetime) s.sellShortRequest.part).2, [],
          (submitSellShortRequest_fields plg s
            (KRecord.ofDatetime s.sellShortRequest.datetime) s.sellShortRequest.part).1.trans
            (List.append_nil _).symm, by simp⟩

theorem buyShortDelay_stepAppends {σ : Type} (plg : Plugins σ) (s : SysState σ)
    (k : KRecord) : StepAppends s (System.buyShortDelay plg s k).2 := by
  unfold System.buyShortDelay
  dsimp only
  split_ifs <;>
    first
      | exact ⟨rfl, [], (List.append_nil _).symm, by simp⟩
      | exact ⟨rfl, [_], rfl, by simp⟩

theorem processRequest_stepAppends {σ : Type} (plg : Plugins σ) (s : SysState σ)
    (k : KRecord) : StepAppends s (System.processRequest plg s k).2 := by
  unfold System.processRequest
  split_ifs
  · exact buyDelay_stepAppends plg s k
  · exact sellDelay_stepAppends plg s k
  · exact sellShortDelay_stepAppends plg s k
  · exact buyShortDelay_stepAppends plg s k
  · exact stepAppends_refl s

theorem processRequest_of_noRequest {σ : Type} (plg : Plugins σ) (s : SysState σ)
    (k : KRecord) (h : System.haveDelayRequest s = false) :
    System.processRequest plg s k = (TradeRecord.null, s) := by
  unfold System.haveDelayRequest at h
  simp only [Bool.or_eq_false_iff] at h
  unfold System.processRequest
  simp [h.1.1.1, h.1.1.2, h.1.2, h.2]

theorem buy_stepAppends {σ : Type} (plg : Plugins σ) (s : SysState σ)
    (k : KRecord) (f : Part) : StepAppends s (System.buy plg s k f).2 := by
  unfold System.buy
  split_ifs
  · exact ⟨(submitBuyRequest_fields plg s k f).2, [],
      (submitBuyRequest_fields plg s k f).1.trans (List.append_nil _).symm, by simp⟩
  · exact buyNow_stepAppends plg s k f

theorem sell_stepAppends {σ : Type} (plg : Plugins σ) (s : SysState σ)
    (k : KRecord) (f : Part) : StepAppends s (System.sell plg s k f).2 := by
  unfold System.sell
  split_ifs
  · exact ⟨(submitSellRequest_fields plg s k f).2, [],
      (submitSellRequest_fields plg s k f).1.trans (List.append_nil _).symm, by simp⟩
  · exact sellNow_stepAppends plg s k f

theorem buy_trade_list_of_delay {σ : Type} (plg : Plugins σ) (s : SysState σ)
    (k : KRecord) (f : Part) (h : s.params.delay = true) :
    (System.buy plg s k f).2.trade_list = s.trade_list ∧
    (System.buy plg s k f).2.params = s.params := by
  unfold System.buy
  rw [h]
  simpa using submitBuyRequest_fields plg s k f

theorem sell_trade_list_of_delay {σ : Type} (plg : Plugins σ) (s : SysState σ)
    (k : KRecord) (f : Part) (h : s.params.delay = true) :
    (System.sell plg s k f).2.trade_list = s.trade_list ∧
    (System.sell plg s k f).2.params = s.params := by
  unfold System.sell
  rw [h]
  simpa using submitSellRequest_fields plg s k f

theorem condSell_stepAppends {σ : Type} (plg : Plugins σ) (s : SysState σ)
    (k : KRecord) (f : Part) : StepAppends s (System.condSell plg s k f).2 := by
  unfold System.condSell
  split_ifs
  · exact sell_stepAppends plg s k f
  · exact stepAppends_refl s

theorem condSell_of_delay {σ : Type} (plg : Plugins σ) (s : SysState σ)
    (k : KRecord) (f : Part) (h : s.params.delay = true) :
    (System.condSell plg s k f).2.trade_list = s.trade_list ∧
    (System.condSell plg s k f).2.params = s.params := by
  unfold System.condSell
  split_ifs
  · exact sell_trade_list_of_delay plg s k f h
  · exact ⟨rfl, rfl⟩

theorem positionPhase_stepAppends {σ : Type} (plg : Plugins σ) (s : SysState σ)
    (k : KRecord) : StepAppends s (System.positionPhase plg s k).2 := by
  unfold System.positionPhase
  dsimp only
  split_ifs <;>
    first
      | exact sell_stepAppends plg _ k _
      | exact stepAppends_refl s

theorem positionPhase_of_delay {σ : Type} (plg : Plugins σ) (s : SysState σ)
    (k : KRecord) (h : s.params.delay = true) :
    (System.positionPhase plg s k).2.trade_list = s.trade_list ∧
    (System.positionPhase plg s k).2.params = s.params := by
  unfold System.positionPhase
  dsimp only
  split_ifs <;>
    first
      | exact sell_trade_list_of_delay plg _ k _ h
      | exact ⟨rfl, rfl⟩

/-- C6 counterexample: at 15:00 with window 09:30–15:00 and one-hour
period, the fire step rolls the next instant to the NEXT DAY'S 09:30:00.000000
exactly — not to 09:30:00.000001 as the claim states (`TimeDelta(1)` is one
day, not one microsecond). -/
theorem C6_cex_roll_is_not_one_microsecond_later :
    Sched.fireStep exFireNow exTimer exFireNow =
      some (timeDelta 1 9 30 0 0 0, exTimer) ∧
    timeDelta 1 9 30 0 0 0 ≠
      Sched.startOfDay exFireNow + timeDelta 1 0 0 0 0 0 + exTimer.start_time + 1 := by
  decide

/-- C6 (amended): in the fire step, when the rescheduled instant
`fired + duration` exceeds today's `end_time` of a daily-windowed timer
(`start_time != end_time`), the next fire instant is rolled to the next
day's `start_time` exactly (today's day boundary plus one day plus
`start_time`), with no extra microsecond. -/
theorem C6_fireStep_rolls_to_next_day_start_time (now tp : Int) (t : Sched.Timer)
    (n : Int) (t1 : Sched.Timer)
    (hw : t.start_time ≠ t.end_time)
    (hover : tp + t.duration > Sched.startOfDay now + t.end_time)
    (hstep : Sched.fireStep now t tp = some (n, t1)) :
    n = Sched.startOfDay now + timeDelta 1 0 0 0 0 0 + t.start_time := by
  unfold Sched.fireStep at hstep
  by_cases hrep : t.repeat_num ≠ Sched.intMax
  all_goals simp only [hrep, ite_true, ite_false] at hstep
  all_goals split_ifs at hstep with h1 h2 h3
  · have h := congrArg Prod.fst (Option.some.inj hstep)
    dsimp only at h
    rw [← h]; ring
  · exact absurd ⟨hw, hover⟩ h3
  · have h := congrArg Prod.fst (Option.some.inj hstep)
    dsimp only at h
    rw [← h]; ring
  · exact absurd ⟨hw, hover⟩ h3

/-- C6 witness for the amended theorem, at the concrete windowed timer. -/
theorem C6_fireStep_rolls_witness :
    exTimer.start_time ≠ exTimer.end_time ∧
    exFireNow + exTimer.duration > Sched.startOfDay exFireNow + exTimer.end_time ∧
    timeDelta 1 9 30 0 0 0 =
      Sched.startOfDay exFireNow + timeDelta 1 0 0 0 0 0 + exTimer.start_time :=
  ⟨by decide, by decide,
    C6_fireStep_rolls_to_next_day_start_time exFireNow exFireNow exTimer
      (timeDelta 1 9 30 0 0 0) exTimer (by decide) (by decide) (by decide)⟩

/-- C7 counterexample: a daily-windowed timer (09:30–15:00) added through
`addFunc` at 16:00 while the scheduler runs gets first instant
`now + duration` (17:00) with no window snapping, and the detect loop
dispatches its callback at that instant — a time of day outside the
window. -/
theorem C7_cex_addFunc_timer_fires_outside_window :
    (Sched.detectStep (timeDelta 0 17 0 0 0 0) exC7sched).1 =
      some (0, timeDelta 0 17 0 0 0 0) ∧
    exTimer.start_time ≠ exTimer.end_time ∧
    Sched.timeOfDay (timeDelta 0 17 0 0 0 0) > exTimer.end_time := by
  decide

/-- C7 (amended): the fire-step reschedule preserves the daily window —
if the fired instant lies on the same day as `now` with time of day inside
`[start_time, end_time]` (and the window is proper: positive duration,
`0 ≤ start_time ≤ end_time < 24h`, `start_time ≠ end_time`), then the
rescheduled instant's time of day also lies inside the window.  The claim
as stated fails because the first instant of a timer added by `addFunc`
is `now + duration` with no window snapping (see the counterexample). -/
theorem C7_fireStep_preserves_window (now tp : Int) (t : Sched.Timer)
    (n : Int) (t1 : Sched.Timer)
    (hs0 : 0 ≤ t.start_time) (hse : t.start_time ≤ t.end_time)
    (he : t.end_time < Sched.usPerDay) (hne : t.start_time ≠ t.end_time)
    (hdur : 0 < t.duration)
    (hday : Sched.startOfDay tp = Sched.startOfDay now)
    (hlo : t.start_time ≤ Sched.timeOfDay tp) (hhi : Sched.timeOfDay tp ≤ t.end_time)
    (hstep : Sched.fireStep now t tp = some (n, t1)) :
    t.start_time ≤ Sched.timeOfDay n ∧ Sched.timeOfDay n ≤ t.end_time := by
  unfold Sched.fireStep at hstep
  by_cases hrep : t.repeat_num ≠ Sched.intMax
  all_goals simp only [hrep, ite_true, ite_false] at hstep
  all_goals split_ifs at hstep with h1 h2 h3
  · have h := congrArg Prod.fst (Option.some.inj hstep)
    dsimp only at h
    rw [← h]
    simp only [Sched.timeOfDay, Sched.startOfDay, Sched.timeDelta, Sched.usPerDay] at *
    omega
  · have hq : ¬ (tp + t.duration > Sched.startOfDay now + t.end_time) :=
      fun q => h3 ⟨hne, q⟩
    have h := congrArg Prod.fst (Option.some.inj hstep)
    dsimp only at h
    rw [← h]
    simp only [Sched.timeOfDay, Sched.startOfDay, Sched.timeDelta, Sched.usPerDay] at *
    omega
  · have h := congrArg Prod.fst (Option.some.inj hstep)
    dsimp only at h
    rw [← h]
    simp only [Sched.timeOfDay, Sched.startOfDay, Sched.timeDelta, Sched.usPerDay] at *
    omega
  · have hq : ¬ (tp + t.duration > Sched.startOfDay now + t.end_time) :=
      fun q => h3 ⟨hne, q⟩
    have h := congrArg Prod.fst (Option.some.inj hstep)
    dsimp only at h
    rw [← h]
    simp only [Sched.timeOfDay, Sched.startOfDay, Sched.timeDelta, Sched.usPerDay] at *
    omega

/-- C7 witness for the amended theorem: one in-window fire at 10:30
reschedules to 11:30, still inside 09:30–15:00. -/
theorem C7_fireStep_preserves_window_witness :
    0 ≤ exTimer.start_time ∧ exTimer.start_time ≤ exTimer.end_time ∧
    exTimer.end_time < Sched.usPerDay ∧ exTimer.start_time ≠ exTimer.end_time ∧
    0 < exTimer.duration ∧
    Sched.startOfDay (timeDelta 0 10 30 0 0 0) = Sched.startOfDay (timeDelta 0 10 30 0 0 0) ∧
    exTimer.start_time ≤ Sched.timeOfDay (timeDelta 0 10 30 0 0 0) ∧
    Sched.timeOfDay (timeDelta 0 10 30 0 0 0) ≤ exTimer.end_time ∧
    (exTimer.start_time ≤ Sched.timeOfDay (timeDelta 0 11 30 0 0 0) ∧
      Sched.timeOfDay (timeDelta 0 11 30 0 0 0) ≤ exTimer.end_time) :=
  ⟨by decide, by decide, by decide, by decide, by decide, rfl, by decide, by decide,
    C7_fireStep_preserves_window (timeDelta 0 10 30 0 0 0) (timeDelta 0 10 30 0 0 0)
      exTimer (timeDelta 0 11 30 0 0 0) exTimer (by decide) (by decide) (by decide)
      (by decide) (by decide) rfl (by decide) (by decide) (by decide)⟩

/-- C8 counterexample: `addDelayFunc` with a 5-second delay succeeds after
checking only `delay > 0`, yet the submission it hands to `_addFunc` has
`start_time = end_time = TimeDelta(0)`, violating the general rule that
both times lie strictly inside `(0, 24h)`; no exception is raised. -/
theorem C8_cex_addDelayFunc_bypasses_general_checks :
    Sched.addDelayFuncSubmission 5000000 = Except.ok exC8sub ∧
    Sched.addFuncChecks exC8sub = false := by
  exact ⟨rfl, by decide⟩

/-- C8 (amended): only the general `addFunc` path enforces the full
validation-rule set.  `addDurationFunc` and `addDelayFunc` check only their
own arguments (`repeat_num > 0`, `duration > 0` / `delay > 0`) and submit
directly through `_addFunc` with sentinel dates and zero window times — a
submission the general rules reject.  `addFuncAtPoint` checks only that
`time_point` is non-null and submits `(run_point.startOfDay(),
Datetime::max(), run_point's time of day, 23:59:59.999999, 1, 100ms)`
without enforcing the general rules; that submission violates them
(`start_time = TimeDelta(0)`) whenever `run_point` falls exactly on a day
boundary. -/
theorem C8_convenience_paths_bypass_validation :
    (∀ sub sub2, Sched.addFuncSubmission sub = Except.ok sub2 →
      sub2 = sub ∧ Sched.addFuncChecks sub2 = true) ∧
    (∀ rn d sub, Sched.addDurationFuncSubmission rn d = Except.ok sub →
      rn > 0 ∧ d > 0 ∧ Sched.addFuncChecks sub = false) ∧
    (∀ d sub, Sched.addDelayFuncSubmission d = Except.ok sub →
      d > 0 ∧ Sched.addFuncChecks sub = false) ∧
    (∀ v : Int, ∃ sub, Sched.addFuncAtPointSubmission (some v) = Except.ok sub ∧
      sub.start_time = Sched.timeOfDay (v - Sched.timeDelta 0 0 0 0 100 0) ∧
      sub.end_time = Sched.hkuMaxTime) ∧
    (∃ sub, Sched.addFuncAtPointSubmission
        (some (Sched.usPerDay + Sched.timeDelta 0 0 0 0 100 0)) = Except.ok sub ∧
      Sched.addFuncChecks sub = false) := by
  refine ⟨?_, ?_, ?_, ?_, ?_⟩
  · intro sub sub2 h
    unfold Sched.addFuncSubmission at h
    split_ifs at h with hc
    · exact ⟨(Except.ok.injEq _ _).mp h.symm ▸ rfl, by
        cases (Except.ok.injEq _ _).mp h; exact hc⟩
  · intro rn d sub h
    unfold Sched.addDurationFuncSubmission at h
    split_ifs at h with h1 h2
    · cases (Except.ok.injEq _ _).mp h
      exact ⟨h1, h2, by simp [Sched.addFuncChecks]⟩
  · intro d sub h
    unfold Sched.addDelayFuncSubmission at h
    split_ifs at h with h1
    · cases (Except.ok.injEq _ _).mp h
      exact ⟨h1, by simp [Sched.addFuncChecks]⟩
  · intro v
    refine ⟨_, rfl, ?_, rfl⟩
    dsimp only
    unfold Sched.startOfDay Sched.timeOfDay
    ring
  · exact ⟨_, rfl, by decide⟩

/-- C8 witness: the amended theorem applied to `addDurationFunc(2, 7µs)`
and to `addFuncAtPoint` at noon of day 0. -/
theorem C8_convenience_paths_witness :
    (Sched.addDurationFuncSubmission 2 7 = Except.ok
      { start_date := some Sched.datetimeMin, end_date := some Sched.datetimeMax,
        start_time := 0, end_time := 0, repeat_num := 2, duration := 7 } ∧
    ((2 : Int) > 0 ∧ (7 : Int) > 0 ∧
      Sched.addFuncChecks
        { start_date := some Sched.datetimeMin, end_date := some Sched.datetimeMax,
          start_time := 0, end_time := 0, repeat_num := 2, duration := 7 } = false)) ∧
    (∃ sub, Sched.addFuncAtPointSubmission (some (Sched.timeDelta 0 12 0 0 0 0)) =
        Except.ok sub ∧
      sub.start_time =
        Sched.timeOfDay (Sched.timeDelta 0 12 0 0 0 0 - Sched.timeDelta 0 0 0 0 100 0) ∧
      sub.end_time = Sched.hkuMaxTime) :=
  ⟨⟨rfl, C8_convenience_paths_bypass_validation.2.1 2 7 _ rfl⟩,
    C8_convenience_paths_bypass_validation.2.2.2.1 (Sched.timeDelta 0 12 0 0 0 0)⟩

/-- C9 counterexample: with `INT_MAX` live timers, `_addFunc` raises
(`HKU_THROW`, modelled `Except.error`) rather than returning an error
sentinel to its caller — the sentinel `-1` is internal to id allocation. -/
theorem C9_cex_addFunc_raises_not_returns :
    (Sched.addFuncState 0 1 exC9full).1 =
      Except.error "Failed to get new id, maybe too timers!" ∧
    isOkId (Sched.addFuncState 0 1 exC9full).1 = false := by
  constructor <;> rfl

/-- C9 (amended): when the live-timer count has reached `INT_MAX`, id
allocation yields the sentinel `-1` (leaving `m_current_timer_id`
untouched) and `addFunc` fails by raising an exception, without
registering a timer or mutating the timer map or queue. -/
theorem C9_id_exhaustion_raises (now dur : Int) (st : Sched.TState)
    (h : st.timers.size ≥ 2147483647) :
    Sched.addFuncState now dur st =
      (Except.error "Failed to get new id, maybe too timers!", st) ∧
    Sched.getNewTimerId st.timers st.current_timer_id = (-1, st.current_timer_id) := by
  have hid : Sched.getNewTimerId st.timers st.current_timer_id =
      (-1, st.current_timer_id) := by
    unfold Sched.getNewTimerId
    rw [if_pos h]
  refine ⟨?_, hid⟩
  unfold Sched.addFuncState
  rw [hid]
  norm_num

/-- C9 witness: the amended theorem at a map of `INT_MAX` live timers. -/
theorem C9_id_exhaustion_witness :
    exC9full.timers.size ≥ 2147483647 ∧
    Sched.addFuncState 3 4 exC9full =
      (Except.error "Failed to get new id, maybe too timers!", exC9full) ∧
    Sched.getNewTimerId exC9full.timers exC9full.current_timer_id =
      (-1, exC9full.current_timer_id) :=
  ⟨by decide, (C9_id_exhaustion_raises 3 4 exC9full (by decide)).1,
    (C9_id_exhaustion_raises 3 4 exC9full (by decide)).2⟩


theorem runMomentInner_gate {σ : Type} (plg : Plugins σ) (s : SysState σ) (k : KRecord)
    (hdeg : k.highPrice = k.lowPrice ∨ k.closePrice > k.highPrice ∨
      k.closePrice < k.lowPrice)
    (hct : s.params.can_trade_when_high_eq_low = false) :
    System.runMomentInner plg s k = (TradeRecord.null, s) := by
  unfold System.runMomentInner
  exact if_pos ⟨hdeg, hct⟩

set_option maxHeartbeats 4000000 in
theorem runMomentInner_appends {σ : Type} (plg : Plugins σ) (s : SysState σ) (k : KRecord)
    (h : s.params.delay = true ∨ System.haveDelayRequest s = false) :
    StepAppends s (System.runMomentInner plg s k).2 := by
  rcases h with hdelay | hnoreq
  · obtain ⟨hp, t0, ht, hl⟩ := processRequest_stepAppends plg s k
    unfold System.runMomentInner
    revert hp ht
    generalize System.processRequest plg s k = pr
    obtain ⟨r0, s1⟩ := pr
    intro hp ht
    dsimp only at hp ht ⊢
    have hdel1 : s1.params.delay = true := by rw [hp]; exact hdelay
    split_ifs
    · exact stepAppends_refl s
    · exact stepAppends_pre_ev
        ⟨(condSell_of_delay plg s1 k Part.environment hdel1).2.trans hp, t0,
         (condSell_of_delay plg s1 k Part.environment hdel1).1.trans ht, hl⟩
    · exact stepAppends_pre_ev
        ⟨(condSell_of_delay plg s1 k Part.environment hdel1).2.trans hp, t0,
         (condSell_of_delay plg s1 k Part.environment hdel1).1.trans ht, hl⟩
    · exact stepAppends_pre_ev
        ⟨(buy_trade_list_of_delay plg s1 k Part.environment hdel1).2.trans hp, t0,
         (buy_trade_list_of_delay plg s1 k Part.environment hdel1).1.trans ht, hl⟩
    · exact stepAppends_pre_ev
        ⟨(buy_trade_list_of_delay plg s1 k Part.environment hdel1).2.trans hp, t0,
         (buy_trade_list_of_delay plg s1 k Part.environment hdel1).1.trans ht, hl⟩
    · exact stepAppends_pre_cn
        ⟨(condSell_of_delay plg { s1 with pre_ev_valid := plg.ev_isValid k.datetime } k Part.condition hdel1).2.trans hp, t0,
         (condSell_of_delay plg { s1 with pre_ev_valid := plg.ev_isValid k.datetime } k Part.condition hdel1).1.trans ht, hl⟩
    · exact stepAppends_pre_cn
        ⟨(condSell_of_delay plg { s1 with pre_ev_valid := plg.ev_isValid k.datetime } k Part.condition hdel1).2.trans hp, t0,
         (condSell_of_delay plg { s1 with pre_ev_valid := plg.ev_isValid k.datetime } k Part.condition hdel1).1.trans ht, hl⟩
    · exact stepAppends_pre_cn
        ⟨(buy_trade_list_of_delay plg { s1 with pre_ev_valid := plg.ev_isValid k.datetime } k Part.condition hdel1).2.trans hp, t0,
         (buy_trade_list_of_delay plg { s1 with pre_ev_valid := plg.ev_isValid k.datetime } k Part.condition hdel1).1.trans ht, hl⟩
    · exact stepAppends_pre_cn
        ⟨(buy_trade_list_of_delay plg { s1 with pre_ev_valid := plg.ev_isValid k.datetime } k Part.condition hdel1).2.trans hp, t0,
         (buy_trade_list_of_delay plg { s1 with pre_ev_valid := plg.ev_isValid k.datetime } k Part.condition hdel1).1.trans ht, hl⟩
    · exact ⟨(buy_trade_list_of_delay plg { s1 with pre_ev_valid := plg.ev_isValid k.datetime, pre_cn_valid := plg.cn_isValid k.datetime } k Part.signal hdel1).2.trans hp, t0,
        (buy_trade_list_of_delay plg { s1 with pre_ev_valid := plg.ev_isValid k.datetime, pre_cn_valid := plg.cn_isValid k.datetime } k Part.signal hdel1).1.trans ht, hl⟩
    · exact ⟨(buy_trade_list_of_delay plg { s1 with pre_ev_valid := plg.ev_isValid k.datetime, pre_cn_valid := plg.cn_isValid k.datetime } k Part.signal hdel1).2.trans hp, t0,
        (buy_trade_list_of_delay plg { s1 with pre_ev_valid := plg.ev_isValid k.datetime, pre_cn_valid := plg.cn_isValid k.datetime } k Part.signal hdel1).1.trans ht, hl⟩
    · exact ⟨(condSell_of_delay plg { s1 with pre_ev_valid := plg.ev_isValid k.datetime, pre_cn_valid := plg.cn_isValid k.datetime } k Part.signal hdel1).2.trans hp, t0,
        (condSell_of_delay plg { s1 with pre_ev_valid := plg.ev_isValid k.datetime, pre_cn_valid := plg.cn_isValid k.datetime } k Part.signal hdel1).1.trans ht, hl⟩
    · exact ⟨(condSell_of_delay plg { s1 with pre_ev_valid := plg.ev_isValid k.datetime, pre_cn_valid := plg.cn_isValid k.datetime } k Part.signal hdel1).2.trans hp, t0,
        (condSell_of_delay plg { s1 with pre_ev_valid := plg.ev_isValid k.datetime, pre_cn_valid := plg.cn_isValid k.datetime } k Part.signal hdel1).1.trans ht, hl⟩
    · exact ⟨(positionPhase_of_delay plg { s1 with pre_ev_valid := plg.ev_isValid k.datetime, pre_cn_valid := plg.cn_isValid k.datetime } k hdel1).2.trans hp, t0,
        (positionPhase_of_delay plg { s1 with pre_ev_valid := plg.ev_isValid k.datetime, pre_cn_valid := plg.cn_isValid k.datetime } k hdel1).1.trans ht, hl⟩
    · exact ⟨(positionPhase_of_delay plg { s1 with pre_ev_valid := plg.ev_isValid k.datetime, pre_cn_valid := plg.cn_isValid k.datetime } k hdel1).2.trans hp, t0,
        (positionPhase_of_delay plg { s1 with pre_ev_valid := plg.ev_isValid k.datetime, pre_cn_valid := plg.cn_isValid k.datetime } k hdel1).1.trans ht, hl⟩
    · exact ⟨hp, t0, ht, hl⟩
  · have hPR := processRequest_of_noRequest plg s k hnoreq
    unfold System.runMomentInner
    rw [hPR]
    dsimp only
    split_ifs
    · exact stepAppends_refl s
    · exact stepAppends_pre_ev (condSell_stepAppends plg s k Part.environment)
    · exact stepAppends_pre_ev (condSell_stepAppends plg s k Part.environment)
    · exact stepAppends_pre_ev (buy_stepAppends plg s k Part.environment)
    · exact stepAppends_pre_ev (buy_stepAppends plg s k Part.environment)
    · exact stepAppends_pre_cn (stepAppends_of_eq s rfl rfl
        (condSell_stepAppends plg { s with pre_ev_valid := plg.ev_isValid k.datetime }
          k Part.condition))
    · exact stepAppends_pre_cn (stepAppends_of_eq s rfl rfl
        (condSell_stepAppends plg { s with pre_ev_valid := plg.ev_isValid k.datetime }
          k Part.condition))
    · exact stepAppends_pre_cn (stepAppends_of_eq s rfl rfl
        (buy_stepAppends plg { s with pre_ev_valid := plg.ev_isValid k.datetime }
          k Part.condition))
    · exact stepAppends_pre_cn (stepAppends_of_eq s rfl rfl
        (buy_stepAppends plg { s with pre_ev_valid := plg.ev_isValid k.datetime }
          k Part.condition))
    · exact stepAppends_of_eq s rfl rfl
        (buy_stepAppends plg
          { s with pre_ev_valid := plg.ev_isValid k.datetime,
                   pre_cn_valid := plg.cn_isValid k.datetime } k Part.signal)
    · exact stepAppends_of_eq s rfl rfl
        (buy_stepAppends plg
          { s with pre_ev_valid := plg.ev_isValid k.datetime,
                   pre_cn_valid := plg.cn_isValid k.datetime } k Part.signal)
    · exact stepAppends_of_eq s rfl rfl
        (condSell_stepAppends plg
          { s with pre_ev_valid := plg.ev_isValid k.datetime,
                   pre_cn_valid := plg.cn_isValid k.datetime } k Part.signal)
    · exact stepAppends_of_eq s rfl rfl
        (condSell_stepAppends plg
          { s with pre_ev_valid := plg.ev_isValid k.datetime,
                   pre_cn_valid := plg.cn_isValid k.datetime } k Part.signal)
    · exact stepAppends_of_eq s rfl rfl
        (positionPhase_stepAppends plg
          { s with pre_ev_valid := plg.ev_isValid k.datetime,
                   pre_cn_valid := plg.cn_isValid k.datetime } k)
    · exact stepAppends_of_eq s rfl rfl
        (positionPhase_stepAppends plg
          { s with pre_ev_valid := plg.ev_isValid k.datetime,
                   pre_cn_valid := plg.cn_isValid k.datetime } k)
    · exact stepAppends_refl s

/-- C1 counterexample: on a degenerate bar (`high == low`) with
`can_trade_when_high_eq_low = false` and a pending delayed buy request of
retry count 1, `runMoment` leaves the request's counter at 1 — it is NOT
re-submitted with the counter bumped to 2 as the claim states, because the
degenerate-bar gate returns before delayed-order processing runs. -/
theorem C1_cex_counter_not_bumped :
    exC1state.buyRequest.valid = true ∧
    exC1state.buyRequest.count = 1 ∧
    (System.runMoment plugTriv exC1state exC1bar).2.buyRequest.count = 1 ∧
    ¬ (System.runMoment plugTriv exC1state exC1bar).2.buyRequest.count =
        exC1state.buyRequest.count + 1 := by
  decide

/-- C1 (amended): on a bar with `high == low` or `close` outside
`[low, high]`, when `can_trade_when_high_eq_low` is false, `runMoment`
returns the null `TradeRecord` and every pending delayed `OrderRequest` is
kept alive UNTOUCHED (neither executed, cleared, re-submitted nor
counter-bumped), and no trade is recorded. -/
theorem C1_degenerate_bar_no_op {σ : Type} (plg : Plugins σ) (s : SysState σ)
    (k : KRecord)
    (hdeg : k.highPrice = k.lowPrice ∨ k.closePrice > k.highPrice ∨
      k.closePrice < k.lowPrice)
    (hct : s.params.can_trade_when_high_eq_low = false) :
    (System.runMoment plg s k).1 = TradeRecord.null ∧
    (System.runMoment plg s k).2.buyRequest = s.buyRequest ∧
    (System.runMoment plg s k).2.sellRequest = s.sellRequest ∧
    (System.runMoment plg s k).2.sellShortRequest = s.sellShortRequest ∧
    (System.runMoment plg s k).2.buyShortRequest = s.buyShortRequest ∧
    (System.runMoment plg s k).2.trade_list = s.trade_list := by
  have hg := runMomentInner_gate plg
    { s with buy_days := s.buy_days + 1, sell_short_days := s.sell_short_days + 1 }
    k hdeg hct
  unfold System.runMoment
  rw [hg]
  exact ⟨rfl, rfl, rfl, rfl, rfl, rfl⟩

/-- C1 witness for the amended theorem, on the degenerate bar with a
pending buy request. -/
theorem C1_degenerate_bar_no_op_witness :
    (exC1bar.highPrice = exC1bar.lowPrice ∨ exC1bar.closePrice > exC1bar.highPrice ∨
      exC1bar.closePrice < exC1bar.lowPrice) ∧
    exC1state.params.can_trade_when_high_eq_low = false ∧
    ((System.runMoment plugTriv exC1state exC1bar).1 = TradeRecord.null ∧
      (System.runMoment plugTriv exC1state exC1bar).2.buyRequest = exC1state.buyRequest ∧
      (System.runMoment plugTriv exC1state exC1bar).2.trade_list = exC1state.trade_list) :=
  ⟨Or.inl (by decide), by decide,
    (C1_degenerate_bar_no_op plugTriv exC1state exC1bar (Or.inl (by decide))
      (by decide)).1,
    (C1_degenerate_bar_no_op plugTriv exC1state exC1bar (Or.inl (by decide))
      (by decide)).2.1,
    (C1_degenerate_bar_no_op plugTriv exC1state exC1bar (Or.inl (by decide))
      (by decide)).2.2.2.2.2⟩

/-- C2: delayed-order processing dispatches at most one pending request per
bar (its state appends at most one trade), and — whenever `delay` is true
or no delayed request is pending, which holds in every reachable
configuration — a whole `runMoment` appends at most one trade to
`m_trade_list`. -/
theorem C2_at_most_one_trade_per_bar {σ : Type} (plg : Plugins σ) (s : SysState σ)
    (k : KRecord) :
    (∃ t, (System.processRequest plg s k).2.trade_list = s.trade_list ++ t ∧
      t.length ≤ 1) ∧
    (s.params.delay = true ∨ System.haveDelayRequest s = false →
      ∃ t, (System.runMoment plg s k).2.trade_list = s.trade_list ++ t ∧
        t.length ≤ 1) := by
  constructor
  · exact (processRequest_stepAppends plg s k).2
  · intro h
    obtain ⟨-, t, ht, hl⟩ := runMomentInner_appends plg
      { s with buy_days := s.buy_days + 1, sell_short_days := s.sell_short_days + 1 }
      k h
    exact ⟨t, ht, hl⟩

/-- C2 witness: one bar on which the pending delayed cover order executes;
exactly one trade is appended. -/
theorem C2_at_most_one_trade_witness :
    (exC10state.params.delay = true ∨ System.haveDelayRequest exC10state = false) ∧
    (∃ t, (System.runMoment exC10plugins exC10state exBar).2.trade_list =
      exC10state.trade_list ++ t ∧ t.length ≤ 1) :=
  ⟨Or.inl (by decide),
    (C2_at_most_one_trade_per_bar exC10plugins exC10state exBar).2 (Or.inl (by decide))⟩

/-- C3 (code bug): when the buy-short request's retry count exceeds
`max_delay_count`, `_submitBuyShortRequest` clears `m_buyRequest` — the
LONG-buy buffer — instead of discarding its own `m_buyShortRequest`, which
stays alive; a copy-paste slip contradicting the symmetric overflow
handling of the other three submit paths. -/
theorem C3_bug_overflow_clears_wrong_buffer :
    exC3state.buyShortRequest.valid = true ∧
    exC3state.buyShortRequest.count > exC3state.params.max_delay_count ∧
    exC3state.buyRequest.valid = true ∧
    (System.submitBuyShortRequest plugTriv exC3state exBar Part.signal).buyShortRequest =
      exC3state.buyShortRequest ∧
    (System.submitBuyShortRequest plugTriv exC3state exBar Part.signal).buyRequest.valid =
      false ∧
    (System.submitSellShortRequest plugTriv exC3state exBar Part.signal).buyRequest =
      exC3state.buyRequest := by
  decide

/-- C4 counterexample: an immediate-mode entry (`delay = false`, buy signal)
succeeds with `realPrice = 101`, yet `m_lastTakeProfit` is seeded with the
TakeProfit plugin's value 55, not with the entry's `realPrice`. -/
theorem C4_cex_immediate_entry_seeds_plugin_value :
    (System.runMoment exC4buyPlugins exC4state exBar).1.business = Business.buy ∧
    (System.runMoment exC4buyPlugins exC4state exBar).1.realPrice = 101 ∧
    (System.runMoment exC4buyPlugins exC4state exBar).2.lastTakeProfit = 55 ∧
    (System.runMoment exC4buyPlugins exC4state exBar).2.lastTakeProfit ≠
      (System.runMoment exC4buyPlugins exC4state exBar).1.realPrice := by
  decide

/-- C4 (amended): a successful DELAYED entry (`_buyDelay`) seeds
`m_lastTakeProfit` with the entry's real price
(`Slippage.getRealBuyPrice(datetime, open)`), while a successful IMMEDIATE
entry (`_buyNow`) seeds it with `TakeProfit.get(record.datetime)` instead. -/
theorem C4_entry_seeds_lastTakeProfit (σ : Type) :
    (∀ (plg : Plugins σ) (s : SysState σ) (k : KRecord),
      (System.buyDelay plg s k).1.isNull = false →
      (System.buyDelay plg s k).2.lastTakeProfit =
        plg.getRealBuyPrice k.datetime k.openPrice) ∧
    (∀ (plg : Plugins σ) (s : SysState σ) (k : KRecord) (f : Part),
      (System.buyNow plg s k f).1.isNull = false →
      (System.buyNow plg s k f).2.lastTakeProfit =
        plg.getTakeProfitPrice (System.buyNow plg s k f).1.datetime) := by
  constructor
  · intro plg s k h
    unfold System.buyDelay at h ⊢
    dsimp only at h ⊢
    split_ifs at h ⊢ <;>
      first
        | rfl
        | exact Bool.noConfusion h
  · intro plg s k f h
    unfold System.buyNow at h ⊢
    dsimp only at h ⊢
    split_ifs at h ⊢ <;>
      first
        | rfl
        | exact Bool.noConfusion h

/-- C4 witness for the amended theorem: a successful delayed entry seeds
`realPrice`; a successful immediate entry seeds the plugin value. -/
theorem C4_entry_seeds_witness :
    ((System.buyDelay exC4plugins exC4delayState exBar).1.isNull = false ∧
      (System.buyDelay exC4plugins exC4delayState exBar).2.lastTakeProfit =
        exC4plugins.getRealBuyPrice exBar.datetime exBar.openPrice) ∧
    ((System.buyNow exC4plugins exC4state exBar Part.signal).1.isNull = false ∧
      (System.buyNow exC4plugins exC4state exBar Part.signal).2.lastTakeProfit =
        exC4plugins.getTakeProfitPrice
          (System.buyNow exC4plugins exC4state exBar Part.signal).1.datetime) :=
  ⟨⟨by decide,
    (C4_entry_seeds_lastTakeProfit Unit).1 exC4plugins exC4delayState exBar (by decide)⟩,
   ⟨by decide,
    (C4_entry_seeds_lastTakeProfit Unit).2 exC4plugins exC4state exBar Part.signal
      (by decide)⟩⟩

/-- C5 (code bug): on a bar where `shouldBuy` is false, `shouldSell` is true
and a long position is held, the signal phase issues the long exit with
`from = SIGNAL` even though `ignore_sell_sg` is true — the parameter is
declared in `initParam` but never consulted in `_runMoment`. -/
theorem C5_bug_ignore_sell_sg_not_consulted :
    exC5state.params.ignore_sell_sg = true ∧
    exC5plugins.sg_shouldBuy exBar.datetime = false ∧
    exC5plugins.sg_shouldSell exBar.datetime = true ∧
    exC5plugins.tm_have exC5state.tm = true ∧
    (System.runMoment exC5plugins exC5state exBar).1.business = Business.sell ∧
    (System.runMoment exC5plugins exC5state exBar).1.part = Part.signal ∧
    (System.runMoment exC5plugins exC5state exBar).2.trade_list.length =
      exC5state.trade_list.length + 1 := by
  decide

set_option maxHeartbeats 2000000 in
/-- C10: when the pending delayed buy-short (cover) request executes
successfully (detected by the trade list having grown), the record is
appended to `m_trade_list` and the buffer cleared, yet `_buyShortDelay` —
which is exactly what `_processRequest` dispatches in this configuration —
returns the EMPTY trade record; unlike `_buyDelay`, whose successful
execution returns the executed (non-null, `BUSINESS_BUY`) record. -/
theorem C10_buyShortDelay_returns_null {σ : Type} (plg : Plugins σ) (s : SysState σ)
    (k : KRecord)
    (hbs : s.buyShortRequest.valid = true)
    (hb : s.buyRequest.valid = false)
    (hs : s.sellRequest.valid = false)
    (hss : s.sellShortRequest.valid = false)
    (hexec : (System.buyShortDelay plg s k).2.trade_list ≠ s.trade_list) :
    System.processRequest plg s k = System.buyShortDelay plg s k ∧
    (System.buyShortDelay plg s k).1.isNull = true ∧
    (∃ r, (System.buyShortDelay plg s k).2.trade_list = s.trade_list ++ [r] ∧
      r.business = Business.buyShort) ∧
    (System.buyShortDelay plg s k).2.buyShortRequest.valid = false ∧
    (∀ s2 : SysState σ, (System.buyDelay plg s2 k).2.trade_list ≠ s2.trade_list →
      (System.buyDelay plg s2 k).1.isNull = false ∧
      (System.buyDelay plg s2 k).1.business = Business.buy) := by
  have hdisp : System.processRequest plg s k = System.buyShortDelay plg s k := by
    unfold System.processRequest
    simp [hb, hs, hss, hbs]
  have hcore : (System.buyShortDelay plg s k).1.isNull = true ∧
      (∃ r, (System.buyShortDelay plg s k).2.trade_list = s.trade_list ++ [r] ∧
        r.business = Business.buyShort) ∧
      (System.buyShortDelay plg s k).2.buyShortRequest.valid = false := by
    unfold System.buyShortDelay at hexec ⊢
    dsimp only at hexec ⊢
    split_ifs at hexec ⊢ <;>
      first
        | exact absurd rfl hexec
        | exact ⟨rfl, ⟨_, rfl, not_not.mp (by assumption)⟩, rfl⟩
  have hcontrast : ∀ s2 : SysState σ,
      (System.buyDelay plg s2 k).2.trade_list ≠ s2.trade_list →
      (System.buyDelay plg s2 k).1.isNull = false ∧
      (System.buyDelay plg s2 k).1.business = Business.buy := by
    intro s2 hex2
    unfold System.buyDelay at hex2 ⊢
    dsimp only at hex2 ⊢
    split_ifs at hex2 ⊢ <;>
      first
        | exact absurd rfl hex2
        | exact absurd (submitBuyRequest_fields plg s2
            (KRecord.ofDatetime s2.buyRequest.datetime) s2.buyRequest.part).1 hex2
        | exact ⟨by simp only [TradeRecord.isNull, not_not.mp (by assumption)]; rfl,
            not_not.mp (by assumption)⟩
  exact ⟨hdisp, hcore.1, hcore.2.1, hcore.2.2, hcontrast⟩

/-- C10 witness: a concrete successful delayed cover — trade appended,
buffer cleared, null record returned — against a successful delayed long
entry returning its record. -/
theorem C10_buyShortDelay_witness :
    exC10state.buyShortRequest.valid = true ∧
    (System.buyShortDelay exC10plugins exC10state exBar).2.trade_list ≠
      exC10state.trade_list ∧
    (System.buyShortDelay exC10plugins exC10state exBar).1.isNull = true ∧
    (System.buyShortDelay exC10plugins exC10state exBar).2.buyShortRequest.valid = false ∧
    ((System.buyDelay exC10plugins exC4delayState exBar).1.isNull = false ∧
      (System.buyDelay exC10plugins exC4delayState exBar).1.business = Business.buy) :=
  ⟨by decide, by decide,
    (C10_buyShortDelay_returns_null exC10plugins exC10state exBar (by decide) (by decide)
      (by decide) (by decide) (by decide)).2.1,
    (C10_buyShortDelay_returns_null exC10plugins exC10state exBar (by decide) (by decide)
      (by decide) (by decide) (by decide)).2.2.2.1,
    (C10_buyShortDelay_returns_null exC10plugins exC10state exBar (by decide) (by decide)
      (by decide) (by decide) (by decide)).2.2.2.2 exC4delayState (by decide)⟩

end Hikyuu
